import Mathlib

/-!
Shallow embedding of `ai_desktop_controller.py` (class `AIDesktopController`):
the JSON value model used by the perception client, the rate limiter,
the action executor, the bounded task loop and the autonomous loop.
Python `None`/truthiness is modelled on a JSON value type; machine time is
modelled as `Int` seconds; external effects (the OpenAI request, the
pyautogui backend, `time.sleep`) are modelled as parameters and event logs.
-/

namespace AIDC

/-- JSON values, as produced by Python `json.loads` (numbers restricted to
integers, which is all the controller ever compares against). -/
inductive Json where
  | null : Json
  | bool (b : Bool) : Json
  | num (n : Int) : Json
  | str (s : String) : Json
  | arr (elems : List Json) : Json
  | obj (fields : List (String × Json)) : Json

/-- Python `x == "lit"` for a JSON value against a string literal. -/
def Json.isStr : Json → String → Bool
  | Json.str t, s => t == s
  | _, _ => false

/-- Python `x is None` for a JSON value. -/
def Json.isNull : Json → Bool
  | Json.null => true
  | _ => false

/-- Python truthiness of a JSON value (`if x:`). -/
def Json.truthy : Json → Bool
  | Json.null => false
  | Json.bool b => b
  | Json.num n => decide (n ≠ 0)
  | Json.str s => decide (s ≠ "")
  | Json.arr xs => !xs.isEmpty
  | Json.obj fs => !fs.isEmpty

/-- Whitespace accepted by the JSON grammar. -/
def isWsChar (c : Char) : Bool :=
  c = ' ' || c = '\n' || c = '\t' || c = '\r'

/-- Skip leading JSON whitespace. -/
def skipWs : List Char → List Char
  | [] => []
  | c :: cs => if isWsChar c then skipWs cs else c :: cs

def isDigitChar (c : Char) : Bool :=
  '0' ≤ c && c ≤ '9'

/-- Split off a maximal run of decimal digits. -/
def takeDigits : List Char → List Char × List Char
  | [] => ([], [])
  | c :: cs =>
    if isDigitChar c then
      let p := takeDigits cs
      (c :: p.1, p.2)
    else ([], c :: cs)

def digitsVal (ds : List Char) : Nat :=
  ds.foldl (fun acc c => acc * 10 + (c.toNat - Char.toNat '0')) 0

/-- Body of a JSON string after the opening quote: returns the decoded
characters and the remainder after the closing quote. -/
def parseStringBody : List Char → Option (List Char × List Char)
  | [] => none
  | '"' :: cs => some ([], cs)
  | '\\' :: e :: cs =>
    let ec := if e = 'n' then '\n' else if e = 't' then '\t'
              else if e = 'r' then '\r' else e
    match parseStringBody cs with
    | some (out, rest) => some (ec :: out, rest)
    | none => none
  | '\\' :: [] => none
  | c :: cs =>
    match parseStringBody cs with
    | some (out, rest) => some (c :: out, rest)
    | none => none

/-- A JSON (integer) number literal. -/
def parseNumber (cs : List Char) : Option (Json × List Char) :=
  let p : Bool × List Char :=
    match cs with
    | c :: rest => if c = '-' then (true, rest) else (false, cs)
    | [] => (false, cs)
  let d := takeDigits p.2
  if d.1.isEmpty then none
  else
    let v : Int := (digitsVal d.1 : Int)
    some (Json.num (if p.1 then -v else v), d.2)

/-- Match a literal keyword tail such as `ull` after `n`. -/
def matchLit : List Char → List Char → Option (List Char)
  | [], rest => some rest
  | pc :: ps, c :: rest => if c = pc then matchLit ps rest else none
  | _ :: _, [] => none

mutual

/-- Recursive-descent JSON value parser (fuel-indexed). -/
def parseValue : Nat → List Char → Option (Json × List Char)
  | 0, _ => none
  | fuel + 1, cs =>
    match skipWs cs with
    | [] => none
    | c :: rest =>
      if c = '{' then parseObjTail fuel rest
      else if c = '[' then parseArrTail fuel rest
      else if c = '"' then
        match parseStringBody rest with
        | some (out, r) => some (Json.str (String.mk out), r)
        | none => none
      else if c = 'n' then
        match matchLit ['u', 'l', 'l'] rest with
        | some r => some (Json.null, r)
        | none => none
      else if c = 't' then
        match matchLit ['r', 'u', 'e'] rest with
        | some r => some (Json.bool true, r)
        | none => none
      else if c = 'f' then
        match matchLit ['a', 'l', 's', 'e'] rest with
        | some r => some (Json.bool false, r)
        | none => none
      else parseNumber (c :: rest)

/-- After an opening `[`. -/
def parseArrTail : Nat → List Char → Option (Json × List Char)
  | 0, _ => none
  | fuel + 1, cs =>
    match skipWs cs with
    | ']' :: r => some (Json.arr [], r)
    | _ =>
      match parseArrItems fuel cs with
      | some (xs, r) => some (Json.arr xs, r)
      | none => none

/-- One or more comma-separated array elements, then `]`. -/
def parseArrItems : Nat → List Char → Option (List Json × List Char)
  | 0, _ => none
  | fuel + 1, cs =>
    match parseValue fuel cs with
    | none => none
    | some (x, r) =>
      match skipWs r with
      | ',' :: r2 =>
        match parseArrItems fuel r2 with
        | some (xs, r3) => some (x :: xs, r3)
        | none => none
      | ']' :: r2 => some ([x], r2)
      | _ => none

/-- After an opening `{`. -/
def parseObjTail : Nat → List Char → Option (Json × List Char)
  | 0, _ => none
  | fuel + 1, cs =>
    match skipWs cs with
    | '}' :: r => some (Json.obj [], r)
    | _ =>
      match parseObjItems fuel cs with
      | some (fs, r) => some (Json.obj fs, r)
      | none => none

/-- One or more `"key": value` members, then `}`. -/
def parseObjItems : Nat → List Char → Option (List (String × Json) × List Char)
  | 0, _ => none
  | fuel + 1, cs =>
    match skipWs cs with
    | '"' :: r =>
      match parseStringBody r with
      | none => none
      | some (kout, r2) =>
        match skipWs r2 with
        | ':' :: r3 =>
          match parseValue fuel r3 with
          | none => none
          | some (v, r4) =>
            match skipWs r4 with
            | ',' :: r5 =>
              match parseObjItems fuel r5 with
              | some (fs, r6) => some ((String.mk kout, v) :: fs, r6)
              | none => none
            | '}' :: r5 => some ([(String.mk kout, v)], r5)
            | _ => none
        | _ => none
    | _ => none

end

/-- Python `json.loads`: `some` parsed value, or `none` when the library
would raise `json.JSONDecodeError`. -/
def json_loads (s : String) : Option Json :=
  let cs := s.data
  match parseValue (4 * cs.length + 4) cs with
  | some (j, rest) => if skipWs rest = [] then some j else none
  | none => none

/-- The `DesktopAction` dataclass. Fields hold JSON values as decoded from
the model response (`None` is `Json.null`), matching what `execute_ai_task`
actually stores in them. -/
structure DesktopAction where
  action_type : Json
  x : Json := Json.null
  y : Json := Json.null
  text : Json := Json.null
  key : Json := Json.null
  confidence : Int := 0
  reasoning : Json := Json.str ""

/-- The mutable fields of `AIDesktopController` that the claims concern.
Screen images are identified by frame numbers; wall-clock time is `Int`
seconds. -/
structure ControllerState where
  is_running : Bool := false
  current_screenshot : Option Nat := none
  interaction_count : Nat := 0
  action_timestamps : List Int := []
  current_mouse_pos : Json × Json := (Json.num 0, Json.num 0)
  max_actions_per_minute : Nat := 30

/-- Observable side effects of one `execute_action` call: backend input
calls and `time.sleep` calls, in order. `settle` is the fixed 0.1 s delay
after a successful action. -/
inductive Event where
  | click (x y : Json)
  | typeText (t : Json)
  | keyPress (k : Json)
  | scroll (x y : Json)
  | move (x y : Json)
  | screenshot
  | sleep (d : Json)
  | settle

/-- A backend input/capture invocation (every event except a pure sleep). -/
def Event.isBackendCall : Event → Bool
  | Event.sleep _ => false
  | Event.settle => false
  | _ => true

/-- Whether Python `time.sleep` accepts this value as a duration: a
nonnegative number (bools are ints in Python) sleeps; a negative number
raises `ValueError` and a non-numeric value raises `TypeError`. -/
def sleepAccepts : Json → Bool
  | Json.num n => decide (0 ≤ n)
  | Json.bool _ => true
  | _ => false

/-- `check_rate_limit`: prune timestamps older than 60 seconds, then compare
the remaining count with the ceiling. Returns the boolean and the state with
the pruned list (the pruning is a real mutation of `self.action_timestamps`). -/
def check_rate_limit (now : Int) (s : ControllerState) : Bool × ControllerState :=
  let ts := s.action_timestamps.filter (fun t => now - t < 60)
  (decide (ts.length < s.max_actions_per_minute),
   { s with action_timestamps := ts })

/-- The common tail of every successful `execute_action` branch:
`self.interaction_count += 1`, `self.action_timestamps.append(time.time())`,
`time.sleep(0.1)`, `return True`. -/
def actionEpilogue (now : Int) (s : ControllerState) (evs : List Event) :
    Bool × ControllerState × List Event :=
  (true,
   { s with interaction_count := s.interaction_count + 1,
            action_timestamps := s.action_timestamps ++ [now] },
   evs ++ [Event.settle])

/-- `execute_action`. `freshFrame` is the frame id a screenshot would
capture; `backendRaises` is true when the pyautogui/screenshot call made by
the dispatched branch raises (the `except` path). The `time.sleep` of the
wait branch sits inside the same `try` and raises on its own when the
duration is invalid (`sleepAccepts`). Returns the boolean result, the
state, and the event log. -/
def execute_action (now : Int) (freshFrame : Nat) (backendRaises : Bool)
    (action : DesktopAction) (s : ControllerState) :
    Bool × ControllerState × List Event :=
  match check_rate_limit now s with
  | (false, s1) => (false, s1, [])
  | (true, s1) =>
    if action.action_type.isStr "click" then
      if !action.x.isNull && !action.y.isNull then
        if backendRaises then (false, s1, [])
        else actionEpilogue now { s1 with current_mouse_pos := (action.x, action.y) }
          [Event.click action.x action.y]
      else actionEpilogue now s1 []
    else if action.action_type.isStr "type" then
      if action.text.truthy then
        if backendRaises then (false, s1, [])
        else actionEpilogue now s1 [Event.typeText action.text]
      else actionEpilogue now s1 []
    else if action.action_type.isStr "key_press" then
      if action.key.truthy then
        if backendRaises then (false, s1, [])
        else actionEpilogue now s1 [Event.keyPress action.key]
      else actionEpilogue now s1 []
    else if action.action_type.isStr "scroll" then
      if !action.x.isNull && !action.y.isNull then
        if backendRaises then (false, s1, [])
        else actionEpilogue now s1 [Event.scroll action.x action.y]
      else actionEpilogue now s1 []
    else if action.action_type.isStr "move" then
      if !action.x.isNull && !action.y.isNull then
        if backendRaises then (false, s1, [])
        else actionEpilogue now { s1 with current_mouse_pos := (action.x, action.y) }
          [Event.move action.x action.y]
      else actionEpilogue now s1 []
    else if action.action_type.isStr "screenshot" then
      if backendRaises then (false, s1, [])
      else actionEpilogue now { s1 with current_screenshot := some freshFrame }
        [Event.screenshot]
    else if action.action_type.isStr "wait" then
      let wait_time := if action.x.truthy then action.x else Json.num 1
      if sleepAccepts wait_time then
        actionEpilogue now s1 [Event.sleep wait_time]
      else (false, s1, [])
    else (false, s1, [])

/-- The literal fallback dict built when `json.loads` raises
`JSONDecodeError` on the model response. -/
def parseFallback (ai_response : String) : Json :=
  Json.obj
    [("analysis", Json.str ai_response),
     ("elements", Json.arr []),
     ("suggested_action",
      Json.obj [("type", Json.str "wait"),
                ("reasoning", Json.str "Could not parse AI response as JSON")])]

/-- The literal dict built when the `openai.ChatCompletion.create` request
raises (`except Exception as e`). -/
def transportFallback (e : String) : Json :=
  Json.obj
    [("analysis", Json.str ("Error during AI analysis: " ++ e)),
     ("elements", Json.arr []),
     ("suggested_action",
      Json.obj [("type", Json.str "wait"),
                ("reasoning", Json.str "AI analysis failed")])]

/-- `analyze_screen_with_ai`. `freshFrame` is the frame a screenshot would
capture; `request` is the outcome of the OpenAI call (`Except.error e` when
it raises with message `e`, `Except.ok body` with the response text
otherwise). Returns the analysis dict, the frame that was encoded and sent,
and the state. -/
def analyze_screen_with_ai (freshFrame : Nat) (request : Except String String)
    (s : ControllerState) : Json × Option Nat × ControllerState :=
  let s1 := if s.current_screenshot = none
            then { s with current_screenshot := some freshFrame } else s
  match request with
  | Except.error e => (transportFallback e, s1.current_screenshot, s1)
  | Except.ok ai_response =>
    match json_loads ai_response with
    | some analysis => (analysis, s1.current_screenshot, s1)
    | none => (parseFallback ai_response, s1.current_screenshot, s1)

/-- The `type` field of the `suggested_action` member of an analysis dict,
when both exist. -/
def suggestedActionType (j : Json) : Option Json :=
  match j with
  | Json.obj fs =>
    match fs.lookup "suggested_action" with
    | some (Json.obj sfs) => sfs.lookup "type"
    | _ => none
  | _ => none

/-- The `analysis` field of an analysis dict, when it exists. -/
def analysisField (j : Json) : Option Json :=
  match j with
  | Json.obj fs => fs.lookup "analysis"
  | _ => none

/-- Python `d.get(key, default)`; raises `AttributeError` on a non-dict. -/
def dictGetD (j : Json) (key : String) (default : Json) : Except String Json :=
  match j with
  | Json.obj fs => Except.ok ((fs.lookup key).getD default)
  | _ => Except.error "AttributeError"

/-- The `DesktopAction(...)` construction inside the loops, reading the
fields of the suggested-action dict with `.get`. -/
def mkAction (suggested : Json) : Except String DesktopAction :=
  match suggested with
  | Json.obj fs =>
    Except.ok
      { action_type := (fs.lookup "type").getD (Json.str "wait"),
        x := (fs.lookup "x").getD Json.null,
        y := (fs.lookup "y").getD Json.null,
        text := (fs.lookup "text").getD Json.null,
        key := (fs.lookup "key").getD Json.null,
        reasoning := (fs.lookup "reasoning").getD (Json.str "") }
  | _ => Except.error "AttributeError"

/-- The `while iteration < max_iterations and not task_completed` loop of
`execute_ai_task`, with the perceive step (`take_screenshot` +
`analyze_screen_with_ai`) abstracted as `analyses` (the analysis obtained
in iteration `i`) and the executor result as `execRes`. The fuel is
`max_iterations - iteration`. Returns `(task_completed, cycles entered,
actions dispatched to execute_action)`, or the uncaught Python exception. -/
def taskLoop (analyses : Nat → Json) (execRes : DesktopAction → Bool) :
    Nat → Nat → Nat → List DesktopAction →
    Except String (Bool × Nat × List DesktopAction)
  | 0, _, cycles, disp => Except.ok (false, cycles, disp)
  | fuel + 1, iteration, cycles, disp =>
    let analysis := analyses (iteration + 1)
    match dictGetD analysis "suggested_action" (Json.obj []) with
    | Except.error e => Except.error e
    | Except.ok suggested =>
      if suggested.truthy = false then
        taskLoop analyses execRes fuel (iteration + 1) (cycles + 1) disp
      else
        match dictGetD suggested "type" Json.null with
        | Except.error e => Except.error e
        | Except.ok ty =>
          if ty.isStr "wait" then
            taskLoop analyses execRes fuel (iteration + 1) (cycles + 1) disp
          else
            match mkAction suggested with
            | Except.error e => Except.error e
            | Except.ok action =>
              if action.action_type.isStr "task_complete" then
                Except.ok (true, cycles + 1, disp)
              else
                let _ := execRes action
                taskLoop analyses execRes fuel (iteration + 1) (cycles + 1)
                  (disp ++ [action])

/-- `execute_ai_task`: run the bounded loop from iteration 0 and report the
final `task_completed` flag as the boolean result. -/
def execute_ai_task (analyses : Nat → Json) (execRes : DesktopAction → Bool)
    (max_iterations : Nat) : Except String (Bool × Nat × List DesktopAction) :=
  taskLoop analyses execRes max_iterations 0 0 []

/-- Outcome of one autonomous-loop iteration body (screenshot + analyze +
possibly execute + sleep): it runs to completion (with `stopRequested` true
when `stop()` cleared `is_running` meanwhile), or raises
`KeyboardInterrupt`, or raises some other exception. -/
inductive IterOutcome where
  | normal (stopRequested : Bool)
  | interrupt
  | failure (e : String)

/-- The `while self.is_running` loop of `start_autonomous_mode`, before the
`except`/`finally` clauses. Returns `none` when the fuel runs out with the
loop still running, `some (Sum.inl exn)` when an iteration raises, and
`some (Sum.inr r)` when the loop condition fails with `is_running = r`. -/
def autonomousLoop (outcomes : Nat → IterOutcome) :
    Nat → Nat → Bool → Option (Sum IterOutcome Bool)
  | _, _, false => some (Sum.inr false)
  | 0, _, true => none
  | fuel + 1, i, true =>
    match outcomes i with
    | IterOutcome.normal stopRequested =>
      autonomousLoop outcomes fuel (i + 1) (!stopRequested)
    | IterOutcome.interrupt => some (Sum.inl IterOutcome.interrupt)
    | IterOutcome.failure e => some (Sum.inl (IterOutcome.failure e))

/-- `start_autonomous_mode`: set `is_running := true`, run the loop under
`try`, catch `KeyboardInterrupt` and `Exception`, and in all cases run the
`finally` block `self.is_running = False`. Returns `none` when the loop has
not terminated within the fuel, otherwise `some (outcome, is_running on
return)` where `Except.ok ()` means the method returned normally. -/
def start_autonomous_mode (outcomes : Nat → IterOutcome) (fuel : Nat) :
    Option (Except String Unit × Bool) :=
  match autonomousLoop outcomes fuel 0 true with
  | none => none
  | some (Sum.inr _) => some (Except.ok (), false)
  | some (Sum.inl IterOutcome.interrupt) => some (Except.ok (), false)
  | some (Sum.inl (IterOutcome.failure _)) => some (Except.ok (), false)
  | some (Sum.inl (IterOutcome.normal _)) => some (Except.ok (), false)

/-- Success flag and cycle count of a task-loop result (dropping the
dispatched-action list). -/
def taskOutcome (r : Except String (Bool × Nat × List DesktopAction)) :
    Except String (Bool × Nat) :=
  r.map (fun p => (p.1, p.2.1))

/-- An analysis whose suggested action is present (a truthy dict) and is
neither `wait` nor `task_complete`: the loop dispatches it and continues. -/
def actionable (analysis : Json) : Prop :=
  ∃ afs sfs,
    analysis = Json.obj afs ∧
    (afs.lookup "suggested_action").getD (Json.obj []) = Json.obj sfs ∧
    sfs.isEmpty = false ∧
    ((sfs.lookup "type").getD Json.null).isStr "wait" = false ∧
    ((sfs.lookup "type").getD (Json.str "wait")).isStr "task_complete" = false

/-- An analysis whose suggested action has type `task_complete`. -/
def completesFirst (analysis : Json) : Prop :=
  ∃ afs sfs,
    analysis = Json.obj afs ∧
    (afs.lookup "suggested_action").getD (Json.obj []) = Json.obj sfs ∧
    sfs.lookup "type" = some (Json.str "task_complete")

/-- A concrete perception stub suggesting a click — non-terminal,
non-wait. -/
def sampleClickAnalysis : Json :=
  Json.obj
    [("analysis", Json.str "a desktop with a button"),
     ("suggested_action",
      Json.obj [("type", Json.str "click"), ("x", Json.num 100),
                ("y", Json.num 200),
                ("reasoning", Json.str "press the button")])]

/-- A concrete perception stub reporting completion. -/
def sampleDoneAnalysis : Json :=
  Json.obj
    [("analysis", Json.str "done"),
     ("suggested_action",
      Json.obj [("type", Json.str "task_complete"),
                ("reasoning", Json.str "finished")])]

/-- Sanity of the `json.loads` model on the shapes the claims exercise. -/
theorem json_loads_samples :
    json_loads "[]" = some (Json.arr []) ∧
    json_loads "hello" = none ∧
    json_loads " \x7b\"a\": 1, \"b\": [true, null]\x7d "
      = some (Json.obj [("a", Json.num 1),
          ("b", Json.arr [Json.bool true, Json.null])]) :=
  ⟨rfl, rfl, rfl⟩

/-- Claim C1, counterexample: the body `"[]"` decodes as JSON (so
`json.loads` does not raise) but is not the expected structure; the code
returns the decoded array unchanged, whose suggested action type is not
`wait`, contradicting the claim's "for every response body that is not
parseable as the expected structure". -/
theorem analyze_wrong_shape_keeps_parsed_value :
    json_loads "[]" = some (Json.arr []) ∧
    (analyze_screen_with_ai 0 (Except.ok "[]") {}).1 = Json.arr [] ∧
    suggestedActionType (analyze_screen_with_ai 0 (Except.ok "[]") {}).1
      ≠ some (Json.str "wait") := by
  refine ⟨rfl, rfl, ?_⟩
  intro h
  exact Option.noConfusion h

/-- Claim C1, amended: whenever the response body fails JSON decoding
(`json.loads` raises), `analyze_screen_with_ai` returns — never raises — an
analysis whose suggested action type is `wait` and whose `analysis` field
is the raw response text; a body that decodes successfully is returned as
decoded, without any validation of its structure. -/
theorem analyze_decode_failure_fallback (freshFrame : Nat) (body : String)
    (s : ControllerState) (h : json_loads body = none) :
    suggestedActionType (analyze_screen_with_ai freshFrame (Except.ok body) s).1
      = some (Json.str "wait") ∧
    analysisField (analyze_screen_with_ai freshFrame (Except.ok body) s).1
      = some (Json.str body) := by
  simp only [analyze_screen_with_ai, h]
  exact ⟨rfl, rfl⟩

/-- Claim C1, witness: the body `hello` fails JSON decoding and triggers
the fallback. -/
theorem analyze_decode_failure_fallback_witness :
    json_loads "hello" = none ∧
    suggestedActionType (analyze_screen_with_ai 0 (Except.ok "hello") {}).1
      = some (Json.str "wait") ∧
    analysisField (analyze_screen_with_ai 0 (Except.ok "hello") {}).1
      = some (Json.str "hello") :=
  ⟨rfl, (analyze_decode_failure_fallback 0 "hello" {} rfl).1,
   (analyze_decode_failure_fallback 0 "hello" {} rfl).2⟩

/-- Claim C7: when the model request raises with message `e`,
`analyze_screen_with_ai` returns — never raises — an analysis whose
`analysis` field records the error and whose suggested action type is
`wait`. -/
theorem analyze_transport_failure_wait (freshFrame : Nat) (e : String)
    (s : ControllerState) :
    suggestedActionType (analyze_screen_with_ai freshFrame (Except.error e) s).1
      = some (Json.str "wait") ∧
    analysisField (analyze_screen_with_ai freshFrame (Except.error e) s).1
      = some (Json.str ("Error during AI analysis: " ++ e)) :=
  ⟨rfl, rfl⟩

/-- The frame `analyze_screen_with_ai` encodes and the screenshot stored on
return: the existing frame when one is present, the fresh capture
otherwise. -/
theorem analyze_frame_eq (freshFrame : Nat) (request : Except String String)
    (s : ControllerState) :
    (analyze_screen_with_ai freshFrame request s).2.1
      = (if s.current_screenshot = none then some freshFrame
         else s.current_screenshot) ∧
    (analyze_screen_with_ai freshFrame request s).2.2.current_screenshot
      = (if s.current_screenshot = none then some freshFrame
         else s.current_screenshot) := by
  rcases request with e | body
  · simp only [analyze_screen_with_ai]
    constructor <;> split <;> rfl
  · rcases hj : json_loads body with _ | j <;>
      simp only [analyze_screen_with_ai, hj] <;>
      constructor <;> split <;> rfl

/-- Claim C10: `analyze_screen_with_ai` captures a fresh frame only when no
current screenshot exists; with a screenshot already set it analyzes that
frame and leaves it in place, so two consecutive analyze calls with no
intervening capture operate on the same frame. -/
theorem analyze_screenshot_reuse (fr1 fr2 : Nat)
    (r1 r2 : Except String String) (s : ControllerState) :
    (∀ f, s.current_screenshot = some f →
      (analyze_screen_with_ai fr1 r1 s).2.1 = some f ∧
      (analyze_screen_with_ai fr1 r1 s).2.2.current_screenshot = some f) ∧
    (s.current_screenshot = none →
      (analyze_screen_with_ai fr1 r1 s).2.1 = some fr1) ∧
    (analyze_screen_with_ai fr2 r2 (analyze_screen_with_ai fr1 r1 s).2.2).2.1
      = (analyze_screen_with_ai fr1 r1 s).2.1 := by
  obtain ⟨h1, h2⟩ := analyze_frame_eq fr1 r1 s
  refine ⟨?_, ?_, ?_⟩
  · intro f hf
    rw [h1, h2, hf]
    simp
  · intro hf
    rw [h1, hf]
    simp
  · obtain ⟨h1b, h2b⟩ := analyze_frame_eq fr2 r2 (analyze_screen_with_ai fr1 r1 s).2.2
    rw [h1b, h2, h1]
    rcases hs : s.current_screenshot with _ | f <;> simp [hs]

/-- Claim C10, witness: with frame 3 already captured a second analyze call
reuses it; with no frame the fresh frame 7 is captured. -/
theorem analyze_screenshot_reuse_witness :
    ((analyze_screen_with_ai 7 (Except.ok "x")
        { current_screenshot := some 3 }).2.1 = some 3 ∧
     (analyze_screen_with_ai 7 (Except.ok "x")
        { current_screenshot := some 3 }).2.2.current_screenshot = some 3) ∧
    (analyze_screen_with_ai 7 (Except.ok "x") {}).2.1 = some 7 :=
  ⟨(analyze_screenshot_reuse 7 0 (Except.ok "x") (Except.ok "x")
      { current_screenshot := some 3 }).1 3 rfl,
   (analyze_screenshot_reuse 7 0 (Except.ok "x") (Except.ok "x") {}).2.1 rfl⟩

/-- Claim C3: with every recorded timestamp inside the trailing 60-second
window of `now` and at least the configured ceiling of them,
`check_rate_limit` returns false; with more than 60 seconds elapsed since
every recorded timestamp (and a positive ceiling, the configured value
being 30), it returns true regardless of prior history. -/
theorem check_rate_limit_policy (now : Int) (s : ControllerState) :
    (s.max_actions_per_minute ≤ s.action_timestamps.length →
      (∀ t ∈ s.action_timestamps, now - t < 60) →
      (check_rate_limit now s).1 = false) ∧
    (0 < s.max_actions_per_minute →
      (∀ t ∈ s.action_timestamps, 60 < now - t) →
      (check_rate_limit now s).1 = true) := by
  constructor
  · intro hlen hall
    have hfix : s.action_timestamps.filter (fun t => now - t < 60)
        = s.action_timestamps := by
      apply List.filter_eq_self.mpr
      intro a ha
      exact decide_eq_true (hall a ha)
    simp only [check_rate_limit, hfix, decide_eq_false_iff_not, not_lt]
    exact hlen
  · intro hpos hall
    have hnil : s.action_timestamps.filter (fun t => now - t < 60) = [] := by
      apply List.filter_eq_nil_iff.mpr
      intro a ha
      have := hall a ha
      simp only [decide_eq_true_eq]
      omega
    simp only [check_rate_limit, hnil, List.length_nil]
    exact decide_eq_true hpos

/-- Claim C2, counterexample: a `click` action with `x = None` (and a
`type` action with empty text) is not rejected — `execute_action` skips
the backend call but falls through to the success epilogue and returns
true, contradicting "returns false". -/
theorem execute_click_missing_x_returns_true :
    (execute_action 0 0 false
        { action_type := Json.str "click", y := Json.num 5 } {}).1 = true ∧
    (execute_action 0 0 false
        { action_type := Json.str "click", y := Json.num 5 } {}).2.2
      = [Event.settle] ∧
    (execute_action 0 0 false
        { action_type := Json.str "type", text := Json.str "" } {}).1 = true :=
  ⟨rfl, rfl, rfl⟩

/-- Claim C2, amended: a `click` action with `x = None`, and a `type`
action with falsy (e.g. empty) text, make no backend call — but
`execute_action` returns true, not false, and still increments
`interaction_count` and records a timestamp. -/
theorem execute_action_skips_invalid (now : Int) (fr : Nat) (br : Bool)
    (a : DesktopAction) (s : ControllerState)
    (hrl : (check_rate_limit now s).1 = true)
    (h : (a.action_type = Json.str "click" ∧ a.x = Json.null) ∨
         (a.action_type = Json.str "type" ∧ a.text.truthy = false)) :
    (execute_action now fr br a s).1 = true ∧
    (execute_action now fr br a s).2.2 = [Event.settle] ∧
    (execute_action now fr br a s).2.1.interaction_count
      = s.interaction_count + 1 := by
  have hrl2 : decide ((s.action_timestamps.filter (fun t => now - t < 60)).length
      < s.max_actions_per_minute) = true := by
    simpa [check_rate_limit] using hrl
  rcases h with ⟨hty, hx⟩ | ⟨hty, htext⟩
  · simp [execute_action, check_rate_limit, hrl2, hty, hx, Json.isStr,
      Json.isNull, actionEpilogue]
  · simp [execute_action, check_rate_limit, hrl2, hty, htext, Json.isStr,
      actionEpilogue]

/-- Claim C2, witness: the two skipped shapes at a fresh state. -/
theorem execute_action_skips_invalid_witness :
    (check_rate_limit 0 ({} : ControllerState)).1 = true ∧
    (execute_action 0 0 true
        { action_type := Json.str "click", y := Json.num 5 } {}).2.2
      = [Event.settle] ∧
    (execute_action 0 0 true
        { action_type := Json.str "type", text := Json.str "" } {}).2.1.interaction_count
      = 0 + 1 :=
  ⟨rfl,
   (execute_action_skips_invalid 0 0 true
      { action_type := Json.str "click", y := Json.num 5 } {} rfl
      (Or.inl ⟨rfl, rfl⟩)).2.1,
   (execute_action_skips_invalid 0 0 true
      { action_type := Json.str "type", text := Json.str "" } {} rfl
      (Or.inr ⟨rfl, rfl⟩)).2.2⟩

/-- Claim C6, counterexample: a rate-limit rejection does not leave
`action_timestamps` unchanged — `check_rate_limit` prunes a stale
timestamp (100, more than 60 s before now = 1000) from the list even as it
rejects the action, so the list shrinks from 31 to 30 entries while
`execute_action` returns false. -/
theorem execute_action_reject_still_prunes :
    (execute_action 1000 0 false
        { action_type := Json.str "click", x := Json.num 1, y := Json.num 2 }
        { action_timestamps := 100 :: List.replicate 30 990 }).1 = false ∧
    (execute_action 1000 0 false
        { action_type := Json.str "click", x := Json.num 1, y := Json.num 2 }
        { action_timestamps := 100 :: List.replicate 30 990 }).2.1.action_timestamps
      ≠ 100 :: List.replicate 30 990 := by
  refine ⟨rfl, ?_⟩
  show List.replicate 30 990 ≠ 100 :: List.replicate 30 990
  decide

set_option maxHeartbeats 1600000 in
/-- Claim C6, amended: `execute_action` increments `interaction_count` and
appends exactly one timestamp exactly when it returns true; when it
returns false (rate-limit rejection, backend exception, or unknown action
kind) `interaction_count` is unchanged and nothing is appended — but on
every call, success or not, `action_timestamps` is first replaced by its
pruning to the trailing 60-second window, so a rejected action can still
shrink the list. -/
theorem execute_action_counter_discipline (now : Int) (fr : Nat) (br : Bool)
    (a : DesktopAction) (s : ControllerState) :
    ((execute_action now fr br a s).1 = true →
      (execute_action now fr br a s).2.1.interaction_count
        = s.interaction_count + 1 ∧
      (execute_action now fr br a s).2.1.action_timestamps
        = s.action_timestamps.filter (fun t => now - t < 60) ++ [now]) ∧
    ((execute_action now fr br a s).1 = false →
      (execute_action now fr br a s).2.1.interaction_count
        = s.interaction_count ∧
      (execute_action now fr br a s).2.1.action_timestamps
        = s.action_timestamps.filter (fun t => now - t < 60)) := by
  rcases hcr : check_rate_limit now s with ⟨ok, s1⟩
  have hs1 : s1 = { s with action_timestamps :=
      s.action_timestamps.filter (fun t => now - t < 60) } := by
    have h2 := congrArg Prod.snd hcr
    simpa [check_rate_limit] using h2.symm
  rcases ok with _ | _
  · simp [execute_action, hcr, hs1]
  · simp only [execute_action, hcr]
    split_ifs <;> simp [actionEpilogue, hs1]

/-- Claim C6, witness: a successful wait action increments the counter and
records its timestamp; a rate-limited one leaves the counter at 0. -/
theorem execute_action_counter_discipline_witness :
    (execute_action 0 0 false { action_type := Json.str "wait" } {}).1 = true ∧
    (execute_action 0 0 false
        { action_type := Json.str "wait" } {}).2.1.interaction_count = 0 + 1 ∧
    (execute_action 0 0 false { action_type := Json.str "wait" }
        { action_timestamps := List.replicate 30 0 }).1 = false ∧
    (execute_action 0 0 false { action_type := Json.str "wait" }
        { action_timestamps := List.replicate 30 0 }).2.1.interaction_count = 0 :=
  ⟨rfl,
   ((execute_action_counter_discipline 0 0 false
      { action_type := Json.str "wait" } {}).1 rfl).1,
   rfl,
   ((execute_action_counter_discipline 0 0 false
      { action_type := Json.str "wait" }
      { action_timestamps := List.replicate 30 0 }).2 rfl).1⟩

/-- Claim C8, counterexample: a `wait` action with `x = 0` provided does
not sleep 0 seconds — Python truthiness sends `x = 0` to the default, so
the executor sleeps 1 second. -/
theorem execute_wait_zero_sleeps_one :
    (execute_action 0 0 false
        { action_type := Json.str "wait", x := Json.num 0 } {}).2.2
      = [Event.sleep (Json.num 1), Event.settle] ∧
    Event.sleep (Json.num 0) ∉
      (execute_action 0 0 false
        { action_type := Json.str "wait", x := Json.num 0 } {}).2.2 := by
  refine ⟨rfl, ?_⟩
  show Event.sleep (Json.num 0) ∉ [Event.sleep (Json.num 1), Event.settle]
  simp

/-- Claim C8, amended: a `wait` action sleeps `x` seconds whenever `x` is
provided, truthy (non-null and nonzero) and a duration `time.sleep`
accepts (a nonnegative number); it sleeps the default 1 second when `x` is
absent (`None`) or 0; and when `x` is truthy but an invalid duration
(negative or non-numeric) the sleep raises inside the `try`, no sleep
occurs, and `execute_action` returns false. -/
theorem execute_wait_duration (now : Int) (fr : Nat) (br : Bool)
    (a : DesktopAction) (s : ControllerState)
    (hrl : (check_rate_limit now s).1 = true)
    (hty : a.action_type = Json.str "wait") :
    (a.x.truthy = true → sleepAccepts a.x = true →
      (execute_action now fr br a s).1 = true ∧
      (execute_action now fr br a s).2.2 = [Event.sleep a.x, Event.settle]) ∧
    (a.x.truthy = false →
      (execute_action now fr br a s).1 = true ∧
      (execute_action now fr br a s).2.2
        = [Event.sleep (Json.num 1), Event.settle]) ∧
    (a.x.truthy = true → sleepAccepts a.x = false →
      (execute_action now fr br a s).1 = false ∧
      (execute_action now fr br a s).2.2 = []) := by
  have hrl2 : decide ((s.action_timestamps.filter (fun t => now - t < 60)).length
      < s.max_actions_per_minute) = true := by
    simpa [check_rate_limit] using hrl
  refine ⟨?_, ?_, ?_⟩
  · intro htr hok
    simp [execute_action, check_rate_limit, hrl2, hty, Json.isStr, htr, hok,
      actionEpilogue]
  · intro htr
    simp [execute_action, check_rate_limit, hrl2, hty, Json.isStr, htr,
      sleepAccepts, actionEpilogue]
  · intro htr hbad
    simp [execute_action, check_rate_limit, hrl2, hty, Json.isStr, htr, hbad]

/-- Claim C8, witness: `x = 5` sleeps 5 seconds, absent `x` sleeps the
default 1 second, and the invalid duration `x = -1` makes the sleep raise
and the call return false. -/
theorem execute_wait_duration_witness :
    (check_rate_limit 0 ({} : ControllerState)).1 = true ∧
    (execute_action 0 0 false
        { action_type := Json.str "wait", x := Json.num 5 } {}).2.2
      = [Event.sleep (Json.num 5), Event.settle] ∧
    (execute_action 0 0 false { action_type := Json.str "wait" } {}).2.2
      = [Event.sleep (Json.num 1), Event.settle] ∧
    (execute_action 0 0 false
        { action_type := Json.str "wait", x := Json.num (-1) } {}).1 = false :=
  ⟨rfl,
   ((execute_wait_duration 0 0 false
      { action_type := Json.str "wait", x := Json.num 5 } {} rfl rfl).1 rfl rfl).2,
   ((execute_wait_duration 0 0 false
      { action_type := Json.str "wait" } {} rfl rfl).2.1 rfl).2,
   ((execute_wait_duration 0 0 false
      { action_type := Json.str "wait", x := Json.num (-1) } {} rfl rfl).2.2
     rfl rfl).1⟩

/-- Claim C3, witness: 30 actions 50 seconds old are over the ceiling at
time 100; at time 200 every timestamp is more than 60 seconds old and the
check passes again. -/
theorem check_rate_limit_policy_witness :
    (check_rate_limit 100 { action_timestamps := List.replicate 30 50 }).1
      = false ∧
    (check_rate_limit 200 { action_timestamps := List.replicate 30 50 }).1
      = true := by
  constructor
  · refine (check_rate_limit_policy 100
      { action_timestamps := List.replicate 30 50 }).1 (by simp) ?_
    intro t ht
    rw [List.eq_of_mem_replicate ht]
    omega
  · refine (check_rate_limit_policy 200
      { action_timestamps := List.replicate 30 50 }).2 (by norm_num) ?_
    intro t ht
    rw [List.eq_of_mem_replicate ht]
    omega

/-- One step of the bounded task loop on an actionable analysis: the cycle
counter advances, one action is dispatched, and the loop continues. -/
theorem taskLoop_actionable_step (analyses : Nat → Json)
    (execRes : DesktopAction → Bool) (fuel iteration cycles : Nat)
    (disp : List DesktopAction) (h : actionable (analyses (iteration + 1))) :
    ∃ a : DesktopAction,
      taskLoop analyses execRes (fuel + 1) iteration cycles disp
        = taskLoop analyses execRes fuel (iteration + 1) (cycles + 1)
            (disp ++ [a]) := by
  obtain ⟨afs, sfs, h1, h2, h3, h4, h5⟩ := h
  refine ⟨{ action_type := (sfs.lookup "type").getD (Json.str "wait"),
            x := (sfs.lookup "x").getD Json.null,
            y := (sfs.lookup "y").getD Json.null,
            text := (sfs.lookup "text").getD Json.null,
            key := (sfs.lookup "key").getD Json.null,
            reasoning := (sfs.lookup "reasoning").getD (Json.str "") }, ?_⟩
  simp [taskLoop, h1, dictGetD, h2, Json.truthy, h3, h4, mkAction, h5]

/-- Claim C4: with a perception stub that always suggests a non-terminal,
non-wait action, the bounded loop with cap 3 runs exactly 3
perceive-decide-act cycles and then returns an unsuccessful (false) result
without raising. -/
theorem execute_ai_task_exhausts_cap (analyses : Nat → Json)
    (execRes : DesktopAction → Bool) (h : ∀ i, actionable (analyses i)) :
    taskOutcome (execute_ai_task analyses execRes 3) = Except.ok (false, 3) := by
  obtain ⟨a1, e1⟩ := taskLoop_actionable_step analyses execRes 2 0 0 [] (h 1)
  obtain ⟨a2, e2⟩ := taskLoop_actionable_step analyses execRes 1 1 1 [a1] (h 2)
  obtain ⟨a3, e3⟩ := taskLoop_actionable_step analyses execRes 0 2 2 [a1, a2] (h 3)
  unfold execute_ai_task
  calc taskOutcome (taskLoop analyses execRes 3 0 0 [])
      = taskOutcome (taskLoop analyses execRes (2 + 1) 0 0 []) := rfl
    _ = taskOutcome (taskLoop analyses execRes 2 (0 + 1) (0 + 1) ([] ++ [a1])) := by
        rw [e1]
    _ = taskOutcome (taskLoop analyses execRes (1 + 1) 1 1 [a1]) := rfl
    _ = taskOutcome (taskLoop analyses execRes 1 (1 + 1) (1 + 1) ([a1] ++ [a2])) := by
        rw [e2]
    _ = taskOutcome (taskLoop analyses execRes (0 + 1) 2 2 [a1, a2]) := rfl
    _ = taskOutcome (taskLoop analyses execRes 0 (2 + 1) (2 + 1) ([a1, a2] ++ [a3])) := by
        rw [e3]
    _ = Except.ok (false, 3) := rfl

/-- Claim C4, witness: a click-suggesting stub exhausts the 3-iteration
cap with a clean false result. -/
theorem execute_ai_task_exhausts_cap_witness :
    taskOutcome (execute_ai_task (fun _ => sampleClickAnalysis) (fun _ => true) 3)
      = Except.ok (false, 3) :=
  execute_ai_task_exhausts_cap (fun _ => sampleClickAnalysis) (fun _ => true)
    (fun _ => ⟨_, _, rfl, rfl, rfl, rfl, rfl⟩)

/-- Claim C5: when the first cycle's analysis suggests `task_complete`,
the bounded loop (any positive cap) stops after exactly one cycle with a
success result and dispatches nothing to the executor. -/
theorem execute_ai_task_completes_first (analyses : Nat → Json)
    (execRes : DesktopAction → Bool) (m : Nat) (h : completesFirst (analyses 1)) :
    execute_ai_task analyses execRes (m + 1) = Except.ok (true, 1, []) := by
  obtain ⟨afs, sfs, h1, h2, h3⟩ := h
  have hne : sfs.isEmpty = false := by
    cases sfs
    · simp at h3
    · rfl
  unfold execute_ai_task
  simp [taskLoop, h1, dictGetD, h2, Json.truthy, hne, h3, mkAction, Json.isStr]

/-- Claim C5, witness: a completion-reporting stub ends the loop at once
with success and an empty dispatch list. -/
theorem execute_ai_task_completes_first_witness :
    execute_ai_task (fun _ => sampleDoneAnalysis) (fun _ => false) 10
      = Except.ok (true, 1, []) :=
  execute_ai_task_completes_first (fun _ => sampleDoneAnalysis) (fun _ => false) 9
    ⟨_, _, rfl, rfl, rfl⟩

/-- Claim C9: whenever `start_autonomous_mode` terminates — the loop
condition cleared by `stop()`, a `KeyboardInterrupt`, or any other
exception in the body — it returns normally with `is_running = false`. -/
theorem start_autonomous_clears_running (outcomes : Nat → IterOutcome)
    (fuel : Nat) (res : Except String Unit × Bool)
    (h : start_autonomous_mode outcomes fuel = some res) :
    res.1 = Except.ok () ∧ res.2 = false := by
  unfold start_autonomous_mode at h
  rcases hl : autonomousLoop outcomes fuel 0 true with _ | r
  · rw [hl] at h
    cases h
  · rw [hl] at h
    rcases r with o | b
    · rcases o with st | _ | e <;>
        · injection h with h2
          rw [← h2]
          exact ⟨rfl, rfl⟩
    · injection h with h2
      rw [← h2]
      exact ⟨rfl, rfl⟩

/-- Claim C9, witness: a run whose first iteration raises a generic
exception still ends with a normal return and `is_running = false`. -/
theorem start_autonomous_clears_running_witness :
    start_autonomous_mode (fun _ => IterOutcome.failure "boom") 3
      = some (Except.ok (), false) ∧
    ((Except.ok () : Except String Unit), false).1 = Except.ok () ∧
    ((Except.ok () : Except String Unit), false).2 = false :=
  ⟨rfl, start_autonomous_clears_running (fun _ => IterOutcome.failure "boom") 3
    (Except.ok (), false) rfl⟩

end AIDC
